import Mathlib

/-!
Shallow embedding of the security-log-analyzer core pipeline
(`src/log_parser.py` and `src/anomaly_detector.py`).

Conventions of the embedding:
* A pandas DataFrame is a `DF`: an ordered list of `Row`s plus the list of
  column names present in the table.  Column-presence checks
  (where python asks whether a column name is in df.columns) become `cols.contains`.
* Python floats are modelled by `Rat`; datetimes by epoch seconds (`Int`),
  with `none` standing for `NaT`/null.
* `re.match`/`re.search` (external regex library calls) are abstracted by a
  `Matcher` parameter: given a pattern string and a subject string it returns
  the capture groups on success.  Python guarantees that a successful match
  yields exactly as many groups as the pattern declares; that contract is the
  `GroupsOk` predicate.
* the sklearn StandardScaler/IsolationForest/TfidfVectorizer pipeline inside
  `detect_ml_anomalies` is abstracted by a `predict` oracle giving the
  per-row outlier decisions of the fitted model; the 10-row floor around it
  is modelled exactly.
* pandas `.std()` uses `ddof=1` (sample standard deviation) and returns NaN
  for fewer than two samples; every comparison against NaN is false.  We
  avoid square roots by the equivalence `c > m + k*sqrt(v) ↔ c > m ∧
  (c-m)^2 > k^2*v` (valid since `k*sqrt(v) ≥ 0`), plus an explicit
  "at least two samples" guard for the NaN case.
-/

namespace SecLog

/-! ### Regex pattern strings (`LogParser.__init__`) -/

def genericPattern : String :=
  "(\\d\x7b4\x7d-\\d\x7b2\x7d-\\d\x7b2\x7d\\s\\d\x7b2\x7d:\\d\x7b2\x7d:\\d\x7b2\x7d)\\s+(\\w+)\\s+\\[([^\\]]+)\\]\\s+(.*)"

def apachePattern : String :=
  "(\\S+) (\\S+) (\\S+) \\[([^:]+):(\\d+:\\d+:\\d+) ([^\\]]+)\\] \"(\\S+) (.*?) (\\S+)\" (\\d+) (\\S+)"

def windowsPattern : String :=
  "(\\d\x7b4\x7d-\\d\x7b2\x7d-\\d\x7b2\x7d\\s\\d\x7b2\x7d:\\d\x7b2\x7d:\\d\x7b2\x7d)\\s+(\\w+)\\s+(\\w+)\\s+(.*)"

def sshPattern : String :=
  "(\\w\x7b3\x7d\\s+\\d\x7b1,2\x7d\\s+\\d\x7b2\x7d:\\d\x7b2\x7d:\\d\x7b2\x7d).*sshd\\[\\d+\\]:\\s+(.*)"

def userPattern : String := "user (\\S+)"

def ipPattern : String := "from (\\d+\\.\\d+\\.\\d+\\.\\d+)"

/-- Abstraction of the `re` library: `re.match(pattern, s)` / `re.search`
returns the tuple of capture groups on success, `none` on failure.  A
deterministic pure function, as the Python calls are. -/
def Matcher : Type := String → String → Option (List String)

/-- The Python regex contract: a successful match of each of the four log
grammars produces exactly its declared number of capture groups
(4 for generic, 11 for apache, 4 for windows, 2 for ssh). -/
def GroupsOk (re : Matcher) : Prop :=
  ∀ s : String,
    (∀ gs, re genericPattern s = some gs → gs.length = 4) ∧
    (∀ gs, re apachePattern s = some gs → gs.length = 11) ∧
    (∀ gs, re windowsPattern s = some gs → gs.length = 4) ∧
    (∀ gs, re sshPattern s = some gs → gs.length = 2)

/-- The pattern dictionary of `LogParser`, in Python dict insertion order. -/
def patterns : List (String × String) :=
  [("generic", genericPattern), ("apache", apachePattern),
   ("windows", windowsPattern), ("ssh", sshPattern)]

/-- Models `LogParser.detect_log_type`: first grammar (in dict order) whose pattern
matches, else "unknown". -/
def detect_log_type (re : Matcher) (log_line : String) : String :=
  match patterns.find? (fun pr => (re pr.2 log_line).isSome) with
  | some pr => pr.1
  | none => "unknown"

/-! ### LogRecord: one parsed log line (the dicts built by `parse_log_file`) -/

structure LogRecord where
  timestamp : String
  log_type : String
  severity : String
  source : String
  message : String
  username : Option String := none
  failed_attempt : Option Bool := none
  status_code : Option String := none
  request_path : Option String := none
deriving Repr, DecidableEq, Inhabited

/-- Python `str.strip()`: remove whitespace from both ends.  Implemented over
the character list (rather than with the byte-position loops of `String.trim`) so
that it evaluates by kernel reduction; same result on the ASCII inputs the
program handles. -/
def strTrim (s : String) : String :=
  String.mk (((s.data.dropWhile Char.isWhitespace).reverse.dropWhile
    Char.isWhitespace).reverse)

def listContainsSub : List Char → List Char → Bool
  | [], sub => sub.isEmpty
  | c :: rest, sub => sub.isPrefixOf (c :: rest) || listContainsSub rest sub

/-- Python `sub in s` substring test, over character lists. -/
def strContains (s sub : String) : Bool := listContainsSub s.data sub.data

/-- Python lower-casing, `str.lower()` (ASCII, which covers the keyword
matching). -/
def strLower (s : String) : String := String.mk (s.data.map Char.toLower)

/-- One iteration of the `parse_log_file` loop body on a single raw line.
`now` is the formatted `datetime.now()` value at the moment the line is
processed; `re` models `re.match`, `reSearch` models `re.search`. -/
def parseLine (re reSearch : Matcher) (now : String) (line : String) :
    Option LogRecord :=
  let s := strTrim line
  let log_type := detect_log_type re s
  if log_type = "unknown" then
    some { timestamp := now, log_type := "unknown", severity := "INFO",
           message := s, source := "unknown" }
  else if log_type = "generic" then
    match re genericPattern s with
    | some gs =>
      if hg : gs.length = 4 then
        some { timestamp := gs[0], log_type := "generic", severity := gs[1],
               source := gs[2], message := gs[3] }
      else none
    | none => none
  else if log_type = "apache" then
    match re apachePattern s with
    | some gs =>
      if hg : gs.length = 11 then
        some { timestamp := gs[3] ++ " " ++ gs[4], log_type := "apache",
               severity := "INFO", source := gs[0],
               message := gs[6] ++ " " ++ gs[7] ++ " " ++ gs[8] ++ " " ++ gs[9],
               status_code := some gs[9], request_path := some gs[7] }
      else none
    | none => none
  else if log_type = "windows" then
    match re windowsPattern s with
    | some gs =>
      if hg : gs.length = 4 then
        some { timestamp := gs[0], log_type := "windows", severity := gs[1],
               source := gs[2], message := gs[3] }
      else none
    | none => none
  else if log_type = "ssh" then
    match re sshPattern s with
    | some gs =>
      if hg : gs.length = 2 then
        let msg := gs[1]
        let is_failed := strContains msg "Failed password" || strContains msg "Invalid user"
        let sev := if is_failed then "WARNING" else "INFO"
        let username := match reSearch userPattern msg with
                        | some (u :: _) => u
                        | _ => "unknown"
        let source_ip := match reSearch ipPattern msg with
                         | some (i :: _) => i
                         | _ => "unknown"
        some { timestamp := gs[0], log_type := "ssh", severity := sev,
               source := source_ip, message := msg,
               username := some username, failed_attempt := some is_failed }
      else none
    | none => none
  else none

/-- Models `LogParser.parse_log_file`: the per-line loop, appending one record per
line that produces one (in file order). -/
def parse_log_file (re reSearch : Matcher) (now : String)
    (lines : List String) : List LogRecord :=
  lines.filterMap (parseLine re reSearch now)

/-! ### The feature/anomaly table -/

/-- One row of the feature-enriched table.  Optional format-specific columns
of `LogRecord` are not consumed by the detector and are not carried here.
Boolean anomaly columns and `anomaly_score` hold their per-row values; the
table-level presence of those columns is tracked by `DF.cols`. -/
structure Row where
  timestamp : Option Int := none
  log_type : String := ""
  severity : String := ""
  source : String := ""
  message : String := ""
  hour : Option Nat := none
  day_of_week : Option Nat := none
  is_security_event : Bool := false
  time_anomaly : Bool := false
  ml_anomaly : Bool := false
  frequency_anomaly : Bool := false
  source_anomaly : Bool := false
  time_diff : Int := 0
  anomaly_score : Rat := 0
  is_anomaly : Bool := false
deriving Repr, DecidableEq, Inhabited

/-- A pandas DataFrame: ordered rows plus the list of column names present. -/
structure DF where
  rows : List Row
  cols : List String
deriving Repr, DecidableEq, Inhabited

/-- Column assignment (`df[c] = ...` / `df.assign`): a new column is
appended at the end; an existing one is overwritten in place. -/
def addCol (c : String) (cols : List String) : List String :=
  if cols.contains c then cols else cols ++ [c]

/-! ### Statistics helpers (pandas `.mean()` / `.std()`) -/

def mean (xs : List Rat) : Rat := xs.sum / (xs.length : Rat)

/-- Sample variance, pandas `ddof=1`.  (For fewer than two samples the Lean
division by zero gives `0`; every caller guards that case separately, since
the pandas `.std()` is NaN there.) -/
def svar (xs : List Rat) : Rat :=
  (xs.map (fun x => (x - mean xs) ^ 2)).sum / ((xs.length : Rat) - 1)

/-- Decides `c > mean + k·std` over a list of `n` group sizes, for `K = 4k²`.
Since `std = √svar ≥ 0`, the comparison is equivalent to
`c > mean ∧ (c − mean)² > k²·svar`; with fewer than two samples the pandas
std is NaN and every NaN comparison is false, hence the length guard.
Writing `S = Σxᵢ` and using `mean = S/n`,
`svar = Σ(xᵢ − S/n)²/(n−1) = Σ(n·xᵢ − S)²/(n²(n−1))`, clearing the positive
denominators (`n ≥ 2`) turns the two comparisons into the integer forms
`S < c·n` and `K·Σ(n·xᵢ − S)² < 4(n−1)(c·n − S)²`.  The lemma
`exceedsKStd_iff` below proves this equivalence against the `Rat`-level
`mean`/`svar`. -/
def exceedsKStd (K : Int) (xs : List Nat) (c : Nat) : Bool :=
  let n : Int := (xs.length : Int)
  let S : Int := (xs.map (fun (x : Nat) => (x : Int))).sum
  decide (2 ≤ xs.length) && decide (S < (c : Int) * n) &&
    decide (K * ((xs.map (fun (x : Nat) => (n * (x : Int) - S) ^ 2)).sum)
      < 4 * (n - 1) * ((c : Int) * n - S) ^ 2)

/-! ### `AnomalyDetector` -/

/-- The hour keys that the pandas groupby on the hour column groups on: rows with a null
hour are excluded from grouping. -/
def hourKeys (rows : List Row) : List Nat := rows.filterMap (fun r => r.hour)

/-- The per-group sizes of the hourly groupby, one entry per
observed hour. -/
def hourlyCounts (rows : List Row) : List Nat :=
  (hourKeys rows).dedup.map (fun h => (hourKeys rows).count h)

/-- Models `AnomalyDetector.detect_time_based_anomalies` (threshold `mean + 2·std`,
so `K = 4·2² = 16`). -/
def detect_time_based_anomalies (df : DF) : DF :=
  if df.rows.length < 10 then
    { rows := df.rows.map (fun r => { r with time_anomaly := false }),
      cols := addCol "time_anomaly" df.cols }
  else
    let ks := hourKeys df.rows
    let counts := hourlyCounts df.rows
    let anomalous_hours :=
      ks.dedup.filter (fun h => exceedsKStd 16 counts (ks.count h))
    { rows := df.rows.map (fun r =>
        { r with time_anomaly :=
            match r.hour with
            | some h => decide (h ∈ anomalous_hours)
            | none => false }),
      cols := addCol "time_anomaly" df.cols }

/-- Models `AnomalyDetector.detect_ml_anomalies`.  The scaler/TF-IDF/isolation-forest
pipeline of the ≥10-row branch is abstracted by the `predict` oracle (the
per-row outlier decisions of the fitted model, one `Bool` per row); the 10-row
floor is modelled exactly. -/
def detect_ml_anomalies (predict : DF → List Bool) (df : DF) : DF :=
  if df.rows.length < 10 then
    { rows := df.rows.map (fun r => { r with ml_anomaly := false }),
      cols := addCol "ml_anomaly" df.cols }
  else
    let preds := predict df
    { rows := df.rows.mapIdx (fun i r => { r with ml_anomaly := preds.getD i false }),
      cols := addCol "ml_anomaly" df.cols }

/-- The timestamp of a row whose null-ness has already been ruled out. -/
def tsKey (r : Row) : Int := r.timestamp.getD 0

def tsLE (a b : Row) : Prop := tsKey a ≤ tsKey b

instance : DecidableRel tsLE := fun a b =>
  inferInstanceAs (Decidable (tsKey a ≤ tsKey b))

instance : IsTotal Row tsLE := ⟨fun a b => Int.le_total (tsKey a) (tsKey b)⟩

instance : IsTrans Row tsLE := ⟨fun _ _ _ h1 h2 => le_trans h1 h2⟩

/-- Models the time_diff assignment, `.diff().dt.total_seconds()` followed by
`fillna(0)`: seconds since the previous row (0 for the first row). -/
def setDiffs (prev : Option Int) : List Row → List Row
  | [] => []
  | r :: rest =>
    let d : Int := match prev with
                   | some p => tsKey r - p
                   | none => 0
    { r with time_diff := d } :: setDiffs r.timestamp rest

/-- Models the window assignment, flooring the timestamp to a multiple of
`m` minutes (floor division, also for pre-epoch times). -/
def windowKey (m : Int) (r : Row) : Int :=
  Int.fdiv (tsKey r) (m * 60) * (m * 60)

def windowKeys (m : Int) (rows : List Row) : List Int := rows.map (windowKey m)

/-- The per-window sizes of the window groupby. -/
def windowCounts (m : Int) (rows : List Row) : List Nat :=
  (windowKeys m rows).dedup.map (fun w => (windowKeys m rows).count w)

/-- Models `AnomalyDetector.detect_frequency_anomalies` (default window 5 minutes;
threshold `mean + 3·std`, so `K = 4·3² = 36`). -/
def detect_frequency_anomalies (df : DF) (time_window_minutes : Int := 5) : DF :=
  if ¬ df.cols.contains "timestamp" ∨ df.rows.length < 10 then
    { rows := df.rows.map (fun r => { r with frequency_anomaly := false }),
      cols := addCol "frequency_anomaly" df.cols }
  else
    let kept := df.rows.filter (fun r => r.timestamp.isSome)
    if kept.length < 10 then
      { rows := kept.map (fun r => { r with frequency_anomaly := false }),
        cols := addCol "frequency_anomaly" df.cols }
    else
      let sorted := kept.insertionSort tsLE
      let rows2 := setDiffs none sorted
      let m := time_window_minutes
      let counts := windowCounts m rows2
      let anomalous_windows :=
        (windowKeys m rows2).dedup.filter
          (fun w => exceedsKStd 36 counts ((windowKeys m rows2).count w))
      { rows := rows2.map (fun r =>
          { r with frequency_anomaly := decide (windowKey m r ∈ anomalous_windows) }),
        cols := (addCol "frequency_anomaly"
                  (addCol "window" (addCol "time_diff" df.cols))).erase "window" }

def sourceKeys (rows : List Row) : List String := rows.map (fun r => r.source)

/-- The per-source sizes of the source groupby. -/
def sourceCounts (rows : List Row) : List Nat :=
  (sourceKeys rows).dedup.map (fun s => (sourceKeys rows).count s)

/-- Models `AnomalyDetector.detect_source_anomalies` (threshold `mean + 2.5·std`,
so `K = 4·2.5² = 25`). -/
def detect_source_anomalies (df : DF) : DF :=
  if ¬ df.cols.contains "source" ∨ df.rows.length < 10 then
    { rows := df.rows.map (fun r => { r with source_anomaly := false }),
      cols := addCol "source_anomaly" df.cols }
  else
    let counts := sourceCounts df.rows
    let suspicious_sources :=
      (sourceKeys df.rows).dedup.filter
        (fun s => exceedsKStd 25 counts ((sourceKeys df.rows).count s))
    { rows := df.rows.map (fun r =>
        { r with source_anomaly := decide (r.source ∈ suspicious_sources) }),
      cols := addCol "source_anomaly" df.cols }

/-- The per-row accumulation of `combine_anomaly_scores`: start at 0 and add
each weighted term in program order; an increment guarded by a column
presence check adds its term when the column exists and nothing otherwise. -/
def rowScore (cols : List String) (r : Row) : Rat :=
  0 + (if cols.contains "time_anomaly" then
        (if r.time_anomaly then (1 : Rat) else 0) else 0)
    + (if cols.contains "ml_anomaly" then
        (if r.ml_anomaly then (1 : Rat) else 0) * 2 else 0)
    + (if cols.contains "frequency_anomaly" then
        (if r.frequency_anomaly then (1 : Rat) else 0) * (3/2) else 0)
    + (if cols.contains "source_anomaly" then
        (if r.source_anomaly then (1 : Rat) else 0) else 0)
    + (if cols.contains "is_security_event" then
        (if r.is_security_event then (1 : Rat) else 0) * (1/2) else 0)

/-- Models `AnomalyDetector.combine_anomaly_scores`. -/
def combine_anomaly_scores (df : DF) : DF :=
  { rows := df.rows.map (fun r =>
      let sc := rowScore df.cols r
      { r with anomaly_score := sc, is_anomaly := decide ((3 : Rat)/2 ≤ sc) }),
    cols := addCol "is_anomaly" (addCol "anomaly_score" df.cols) }

/-- Models `AnomalyDetector.analyze`: the four detectors in order, then fusion. -/
def analyze (predict : DF → List Bool) (df : DF) : DF :=
  combine_anomaly_scores
    (detect_source_anomalies
      (detect_frequency_anomalies
        (detect_ml_anomalies predict
          (detect_time_based_anomalies df))))

/-! ### `LogParser.extract_features` -/

/-- The security-keyword vocabulary of `extract_features`. -/
def secVocab : List String :=
  ["fail", "error", "warn", "attack", "invalid", "compromise", "threat",
   "attempt", "denied", "violation", "suspicious"]

/-- Models the security-keyword regex check on `message`: case-insensitive
substring match against the vocabulary. -/
def isSecurityEvent (msg : String) : Bool :=
  secVocab.any (fun k => strContains (strLower msg) k)

/-- Abstraction of the coercing `pd.to_datetime`: epoch seconds on
success, `none` (NaT) for an unparseable string. -/
def ToDatetime : Type := String → Option Int

def hourOfTs (t : Int) : Nat := ((Int.fdiv t 3600) % 24).toNat

/-- pandas `dayofweek`, Monday = 0; 1970-01-01 was a Thursday (= 3). -/
def dayOfWeekTs (t : Int) : Nat := (((Int.fdiv t 86400) + 3) % 7).toNat

/-- Models `pd.DataFrame(log_data)` followed by `LogParser.extract_features`:
timestamp parsing (abstracted by `toDT`), derived `hour`/`day_of_week`
(null when the timestamp is null), and the `is_security_event` flag. -/
def extract_features (toDT : ToDatetime) (recs : List LogRecord) : DF :=
  { rows := recs.map (fun rec =>
      let ts := toDT rec.timestamp
      { timestamp := ts,
        hour := ts.map hourOfTs,
        day_of_week := ts.map dayOfWeekTs,
        log_type := rec.log_type,
        severity := rec.severity,
        source := rec.source,
        message := rec.message,
        is_security_event := isSecurityEvent rec.message }),
    cols := ["timestamp", "log_type", "severity", "message", "source",
             "hour", "day_of_week", "is_security_event"] }

/-! ### Fusion: specification-side definitions and claims C1 / C8 -/

/-- Boolean-to-number coercion used by the spec formula. -/
def br (b : Bool) : Rat := if b then 1 else 0

/-- The fusion score exactly as the specification words it: weighted sum
`1·time_anomaly + 2·ml_anomaly + 1.5·frequency_anomaly + 1·source_anomaly
+ 0.5·is_security_event`, each term included only if its source column
exists in the table. -/
def specFusionScore (cols : List String) (r : Row) : Rat :=
  (if cols.contains "time_anomaly" then 1 * br r.time_anomaly else 0)
  + (if cols.contains "ml_anomaly" then 2 * br r.ml_anomaly else 0)
  + (if cols.contains "frequency_anomaly" then (3/2) * br r.frequency_anomaly else 0)
  + (if cols.contains "source_anomaly" then 1 * br r.source_anomaly else 0)
  + (if cols.contains "is_security_event" then (1/2) * br r.is_security_event else 0)

lemma rowScore_eq_spec (cols : List String) (r : Row) :
    rowScore cols r = specFusionScore cols r := by
  simp only [rowScore, specFusionScore, br]
  split_ifs <;> ring

/-- C1: for every input table, `combine_anomaly_scores` sets `anomaly_score`
to the weighted sum `1·time_anomaly + 2·ml_anomaly + 1.5·frequency_anomaly
+ 1·source_anomaly + 0.5·is_security_event`, each term included only if its
source column exists, and sets `is_anomaly` true exactly when
`anomaly_score ≥ 1.5`, for all rows. -/
theorem combine_anomaly_scores_matches_spec (df : DF) :
    (combine_anomaly_scores df).rows = df.rows.map (fun r =>
      { r with anomaly_score := specFusionScore df.cols r,
               is_anomaly := decide ((3 : Rat)/2 ≤ specFusionScore df.cols r) }) ∧
    ∀ r ∈ (combine_anomaly_scores df).rows,
      (r.is_anomaly = true ↔ (3 : Rat)/2 ≤ r.anomaly_score) := by
  constructor
  · unfold combine_anomaly_scores
    exact List.map_congr_left (fun r _ => by
      simp only [rowScore_eq_spec])
  · intro r hr
    unfold combine_anomaly_scores at hr
    simp only [List.mem_map] at hr
    obtain ⟨r0, _, rfl⟩ := hr
    simp [decide_eq_true_iff]

/-- The five individual anomaly signals entering the fusion step. -/
inductive AnomalyFlag
  | time
  | ml
  | freq
  | src
  | sec

/-- Set the given signal of a row to `true`, leaving everything else alone. -/
def setFlagTrue : AnomalyFlag → Row → Row
  | AnomalyFlag.time, r => { r with time_anomaly := true }
  | AnomalyFlag.ml, r => { r with ml_anomaly := true }
  | AnomalyFlag.freq, r => { r with frequency_anomaly := true }
  | AnomalyFlag.src, r => { r with source_anomaly := true }
  | AnomalyFlag.sec, r => { r with is_security_event := true }

lemma getD_map_default (f : Row → Row) (l : List Row) (i : Nat) (h : i < l.length) :
    (l.map f).getD i default = f (l.getD i default) := by
  simp [List.getD_eq_getElem?_getD, List.getElem?_map,
    List.getElem?_eq_getElem h]

lemma getD_map_default_ge (f : Row → Row) (l : List Row) (i : Nat)
    (h : l.length ≤ i) : (l.map f).getD i default = default := by
  rw [List.getD_eq_getElem?_getD, List.getElem?_eq_none (by simpa using h)]
  rfl

lemma rowScore_le_setFlagTrue (cols : List String) (k : AnomalyFlag) (r : Row) :
    rowScore cols r ≤ rowScore cols (setFlagTrue k r) := by
  rw [rowScore_eq_spec, rowScore_eq_spec]
  cases k
  case time =>
    simp only [specFusionScore, setFlagTrue]
    apply add_le_add_right
    apply add_le_add_right
    apply add_le_add_right
    apply add_le_add_right
    split_ifs
    · cases r.time_anomaly <;> norm_num [br]
    · exact le_rfl
  case ml =>
    simp only [specFusionScore, setFlagTrue]
    apply add_le_add_right
    apply add_le_add_right
    apply add_le_add_right
    apply add_le_add_left
    split_ifs
    · cases r.ml_anomaly <;> norm_num [br]
    · exact le_rfl
  case freq =>
    simp only [specFusionScore, setFlagTrue]
    apply add_le_add_right
    apply add_le_add_right
    apply add_le_add_left
    split_ifs
    · cases r.frequency_anomaly <;> norm_num [br]
    · exact le_rfl
  case src =>
    simp only [specFusionScore, setFlagTrue]
    apply add_le_add_right
    apply add_le_add_left
    split_ifs
    · cases r.source_anomaly <;> norm_num [br]
    · exact le_rfl
  case sec =>
    simp only [specFusionScore, setFlagTrue]
    apply add_le_add_left
    split_ifs
    · cases r.is_security_event <;> norm_num [br]
    · exact le_rfl

/-- C8: the anomaly score computed by `combine_anomaly_scores` is monotone in
the individual signals: turning any one of `time_anomaly`, `ml_anomaly`,
`frequency_anomaly`, `source_anomaly` or `is_security_event` of a row to
`true` (all other inputs equal) never lowers the `anomaly_score` of that row. -/
theorem anomaly_score_monotone (df : DF) (i : Nat) (k : AnomalyFlag) :
    ((combine_anomaly_scores df).rows.getD i default).anomaly_score ≤
      ((combine_anomaly_scores
          { df with rows := df.rows.set i (setFlagTrue k (df.rows.getD i default)) }).rows.getD
        i default).anomaly_score := by
  by_cases h : i < df.rows.length
  · have hset : (df.rows.set i (setFlagTrue k (df.rows.getD i default))).getD i default
        = setFlagTrue k (df.rows.getD i default) := by
      rw [List.getD_eq_getElem?_getD, List.getElem?_set_self h]
      rfl
    unfold combine_anomaly_scores
    rw [getD_map_default _ _ _ h, getD_map_default _ _ _ (by simpa using h), hset]
    exact rowScore_le_setFlagTrue df.cols k (df.rows.getD i default)
  · have hge : df.rows.length ≤ i := by omega
    unfold combine_anomaly_scores
    rw [getD_map_default_ge _ _ _ hge, getD_map_default_ge _ _ _ (by simpa using hge)]

/-! ### Claims C4, C2, C3, C9 -/

lemma detect_cascade (re : Matcher) (s : String) :
    detect_log_type re s =
      if (re genericPattern s).isSome then "generic"
      else if (re apachePattern s).isSome then "apache"
      else if (re windowsPattern s).isSome then "windows"
      else if (re sshPattern s).isSome then "ssh"
      else "unknown" := by
  unfold detect_log_type patterns
  cases h1 : (re genericPattern s).isSome <;>
    cases h2 : (re apachePattern s).isSome <;>
      cases h3 : (re windowsPattern s).isSome <;>
        cases h4 : (re sshPattern s).isSome <;>
          simp [List.find?, h1, h2, h3, h4]

/-- C4: `detect_log_type` is a total, deterministic function: it tries the
four grammars in the fixed priority order generic, apache, windows, ssh,
returns the first whose pattern matches the trimmed line, always returns one
of the five type tags ("unknown" when none match, never a failure), and
repeated calls on the same line return the same type. -/
theorem detect_log_type_total_ordered (re : Matcher) (line : String) :
    (detect_log_type re (strTrim line) =
      if (re genericPattern (strTrim line)).isSome then "generic"
      else if (re apachePattern (strTrim line)).isSome then "apache"
      else if (re windowsPattern (strTrim line)).isSome then "windows"
      else if (re sshPattern (strTrim line)).isSome then "ssh"
      else "unknown") ∧
    detect_log_type re (strTrim line) ∈ ["generic", "apache", "windows", "ssh", "unknown"] ∧
    detect_log_type re (strTrim line) = detect_log_type re (strTrim line) := by
  refine ⟨detect_cascade re (strTrim line), ?_, rfl⟩
  rw [detect_cascade re (strTrim line)]
  split_ifs <;> simp

/-- C2: for every table with fewer than 10 rows, each of the four detector
methods returns its boolean anomaly column as uniformly false (the rows are
returned unchanged apart from the flag column assigned to false): an
explicit short-circuit, not an error. -/
theorem detectors_short_circuit_below_ten (predict : DF → List Bool) (df : DF)
    (h : df.rows.length < 10) :
    (detect_time_based_anomalies df).rows
        = df.rows.map (fun r => { r with time_anomaly := false }) ∧
    (detect_ml_anomalies predict df).rows
        = df.rows.map (fun r => { r with ml_anomaly := false }) ∧
    (detect_frequency_anomalies df).rows
        = df.rows.map (fun r => { r with frequency_anomaly := false }) ∧
    (detect_source_anomalies df).rows
        = df.rows.map (fun r => { r with source_anomaly := false }) ∧
    (∀ r ∈ (detect_time_based_anomalies df).rows, r.time_anomaly = false) ∧
    (∀ r ∈ (detect_ml_anomalies predict df).rows, r.ml_anomaly = false) ∧
    (∀ r ∈ (detect_frequency_anomalies df).rows, r.frequency_anomaly = false) ∧
    (∀ r ∈ (detect_source_anomalies df).rows, r.source_anomaly = false) := by
  have ht : (detect_time_based_anomalies df).rows
      = df.rows.map (fun r => { r with time_anomaly := false }) := by
    unfold detect_time_based_anomalies
    rw [if_pos h]
  have hm : (detect_ml_anomalies predict df).rows
      = df.rows.map (fun r => { r with ml_anomaly := false }) := by
    unfold detect_ml_anomalies
    rw [if_pos h]
  have hf : (detect_frequency_anomalies df).rows
      = df.rows.map (fun r => { r with frequency_anomaly := false }) := by
    unfold detect_frequency_anomalies
    rw [if_pos (Or.inr h)]
  have hs : (detect_source_anomalies df).rows
      = df.rows.map (fun r => { r with source_anomaly := false }) := by
    unfold detect_source_anomalies
    rw [if_pos (Or.inr h)]
  refine ⟨ht, hm, hf, hs, ?_, ?_, ?_, ?_⟩
  · intro r hr
    rw [ht] at hr
    obtain ⟨r0, _, rfl⟩ := List.mem_map.mp hr
    rfl
  · intro r hr
    rw [hm] at hr
    obtain ⟨r0, _, rfl⟩ := List.mem_map.mp hr
    rfl
  · intro r hr
    rw [hf] at hr
    obtain ⟨r0, _, rfl⟩ := List.mem_map.mp hr
    rfl
  · intro r hr
    rw [hs] at hr
    obtain ⟨r0, _, rfl⟩ := List.mem_map.mp hr
    rfl

/-- A concrete two-row table used to instantiate the short-circuit claim. -/
def dfSmall : DF :=
  { rows := [{ source := "a", message := "hello" },
             { source := "b", message := "world", timestamp := some 60 }],
    cols := ["timestamp", "log_type", "severity", "message", "source"] }

theorem detectors_short_circuit_below_ten_witness :
    dfSmall.rows.length < 10 ∧
    ((detect_time_based_anomalies dfSmall).rows
        = dfSmall.rows.map (fun r => { r with time_anomaly := false }) ∧
     (detect_ml_anomalies (fun _ => []) dfSmall).rows
        = dfSmall.rows.map (fun r => { r with ml_anomaly := false }) ∧
     (detect_frequency_anomalies dfSmall).rows
        = dfSmall.rows.map (fun r => { r with frequency_anomaly := false }) ∧
     (detect_source_anomalies dfSmall).rows
        = dfSmall.rows.map (fun r => { r with source_anomaly := false }) ∧
     (∀ r ∈ (detect_time_based_anomalies dfSmall).rows, r.time_anomaly = false) ∧
     (∀ r ∈ (detect_ml_anomalies (fun _ => []) dfSmall).rows, r.ml_anomaly = false) ∧
     (∀ r ∈ (detect_frequency_anomalies dfSmall).rows, r.frequency_anomaly = false) ∧
     (∀ r ∈ (detect_source_anomalies dfSmall).rows, r.source_anomaly = false)) :=
  ⟨by decide, detectors_short_circuit_below_ten (fun _ => []) dfSmall (by decide)⟩

lemma parseLine_isSome (re reSearch : Matcher) (hre : GroupsOk re)
    (now line : String) : (parseLine re reSearch now line).isSome := by
  have hc := detect_cascade re (strTrim line)
  by_cases h1 : (re genericPattern (strTrim line)).isSome
  · have hd : detect_log_type re (strTrim line) = "generic" := by
      rw [hc]
      simp [h1]
    obtain ⟨gs, hgs⟩ := Option.isSome_iff_exists.mp h1
    have hlen := (hre (strTrim line)).1 gs hgs
    simp [parseLine, hd, hgs, hlen]
  · by_cases h2 : (re apachePattern (strTrim line)).isSome
    · have hd : detect_log_type re (strTrim line) = "apache" := by
        rw [hc]
        simp [h1, h2]
      obtain ⟨gs, hgs⟩ := Option.isSome_iff_exists.mp h2
      have hlen := (hre (strTrim line)).2.1 gs hgs
      simp [parseLine, hd, hgs, hlen]
    · by_cases h3 : (re windowsPattern (strTrim line)).isSome
      · have hd : detect_log_type re (strTrim line) = "windows" := by
          rw [hc]
          simp [h1, h2, h3]
        obtain ⟨gs, hgs⟩ := Option.isSome_iff_exists.mp h3
        have hlen := (hre (strTrim line)).2.2.1 gs hgs
        simp [parseLine, hd, hgs, hlen]
      · by_cases h4 : (re sshPattern (strTrim line)).isSome
        · have hd : detect_log_type re (strTrim line) = "ssh" := by
            rw [hc]
            simp [h1, h2, h3, h4]
          obtain ⟨gs, hgs⟩ := Option.isSome_iff_exists.mp h4
          have hlen := (hre (strTrim line)).2.2.2 gs hgs
          simp [parseLine, hd, hgs, hlen]
        · have hd : detect_log_type re (strTrim line) = "unknown" := by
            rw [hc]
            simp [h1, h2, h3, h4]
          simp [parseLine, hd]

lemma length_filterMap_eq_of_isSome {α β : Type} (f : α → Option β)
    (l : List α) (h : ∀ a ∈ l, (f a).isSome) :
    (l.filterMap f).length = l.length := by
  induction l with
  | nil => rfl
  | cons a l ih =>
    obtain ⟨b, hb⟩ := Option.isSome_iff_exists.mp (h a (by simp))
    simp [List.filterMap_cons, hb, ih (fun x hx => h x (by simp [hx]))]

/-- C3: given the regex-library contract that a successful match yields the
declared number of capture groups of the pattern, `parse_log_file` produces at
most one record per input line, and in fact exactly one: a grammar-extracted
record when a grammar matched, or an unknown-typed fallback record carrying
the stripped line as message when none matched.  No line is dropped. -/
theorem parse_log_file_one_record_per_line (re reSearch : Matcher)
    (now : String) (lines : List String) (hre : GroupsOk re) :
    (parse_log_file re reSearch now lines).length = lines.length ∧
    (parse_log_file re reSearch now lines).length ≤ lines.length ∧
    ∀ line ∈ lines, ∃ r : LogRecord,
      parseLine re reSearch now line = some r ∧
      (detect_log_type re (strTrim line) = "unknown" →
        r.log_type = "unknown" ∧ r.message = (strTrim line)) := by
  have hall : ∀ l ∈ lines, (parseLine re reSearch now l).isSome :=
    fun l _ => parseLine_isSome re reSearch hre now l
  have hlen := length_filterMap_eq_of_isSome (parseLine re reSearch now) lines hall
  refine ⟨hlen, le_of_eq hlen, ?_⟩
  intro line hline
  by_cases hu : detect_log_type re (strTrim line) = "unknown"
  · exact ⟨{ timestamp := now, log_type := "unknown", severity := "INFO",
             message := (strTrim line), source := "unknown" },
      by simp [parseLine, hu], fun _ => ⟨rfl, rfl⟩⟩
  · obtain ⟨r, hr⟩ := Option.isSome_iff_exists.mp (hall line hline)
    exact ⟨r, hr, fun hcon => absurd hcon hu⟩

/-- A matcher on which no grammar matches (as the real regexes behave on the
sample lines used in witnesses, which contain no digits or brackets). -/
def rmNone : Matcher := fun _ _ => none

lemma rmNone_groupsOk : GroupsOk rmNone := by
  intro s
  refine ⟨?_, ?_, ?_, ?_⟩ <;> exact fun gs h => Option.noConfusion h

theorem parse_log_file_one_record_per_line_witness :
    GroupsOk rmNone ∧
    ((parse_log_file rmNone rmNone "t0" ["alpha", "beta"]).length
        = (["alpha", "beta"] : List String).length ∧
     (parse_log_file rmNone rmNone "t0" ["alpha", "beta"]).length
        ≤ (["alpha", "beta"] : List String).length ∧
     ∀ line ∈ (["alpha", "beta"] : List String), ∃ r : LogRecord,
       parseLine rmNone rmNone "t0" line = some r ∧
       (detect_log_type rmNone (strTrim line) = "unknown" →
         r.log_type = "unknown" ∧ r.message = (strTrim line))) :=
  ⟨rmNone_groupsOk,
   parse_log_file_one_record_per_line rmNone rmNone "t0" ["alpha", "beta"]
     rmNone_groupsOk⟩

/-- C9: when the type of a line is detected as unknown, the produced record has a
`timestamp` field holding the formatted wall-clock time of the parse (`now`),
not a null, together with severity INFO and source "unknown"; parses at
different wall-clock times therefore produce different records for the same
line. -/
theorem unknown_lines_get_parse_time_timestamp (re reSearch : Matcher)
    (now line : String) (h : detect_log_type re (strTrim line) = "unknown") :
    parseLine re reSearch now line
      = some { timestamp := now, log_type := "unknown", severity := "INFO",
               message := (strTrim line), source := "unknown" } ∧
    ∀ now2 : String, now2 ≠ now →
      parseLine re reSearch now2 line ≠ parseLine re reSearch now line := by
  have mk : ∀ n : String, parseLine re reSearch n line
      = some { timestamp := n, log_type := "unknown", severity := "INFO",
               message := (strTrim line), source := "unknown" } := by
    intro n
    simp [parseLine, h]
  refine ⟨mk now, ?_⟩
  intro now2 hne hcontra
  rw [mk now, mk now2] at hcontra
  exact hne (congrArg LogRecord.timestamp (Option.some.inj hcontra))

theorem unknown_lines_get_parse_time_timestamp_witness :
    detect_log_type rmNone (strTrim "hello") = "unknown" ∧
    (parseLine rmNone rmNone "2025-01-01 00:00:01" "hello"
        = some { timestamp := "2025-01-01 00:00:01", log_type := "unknown",
                 severity := "INFO", message := strTrim "hello",
                 source := "unknown" } ∧
     ∀ now2 : String, now2 ≠ "2025-01-01 00:00:01" →
       parseLine rmNone rmNone now2 "hello"
         ≠ parseLine rmNone rmNone "2025-01-01 00:00:01" "hello") :=
  ⟨by rfl,
   unknown_lines_get_parse_time_timestamp rmNone rmNone "2025-01-01 00:00:01"
     "hello" (by rfl)⟩

/-! ### Claim C5: time-based detector -/

/-- Time-based flagging as claim C5 words it: the mean and standard deviation
are computed across all 24 hourly buckets 0–23, absent hours contributing a
zero count. -/
def spec24Counts (rows : List Row) : List Nat :=
  (List.range 24).map (fun h => (hourKeys rows).count h)

/-- Claim C5 as a per-row flag: the count of the hour of the row exceeds
`mean + 2·std` across the 24 hourly buckets. -/
def spec24Flag (rows : List Row) (r : Row) : Bool :=
  match r.hour with
  | some h => exceedsKStd 16 (spec24Counts rows) ((hourKeys rows).count h)
  | none => false

/-- The flag the code actually computes, stated row-wise: the count statistics
range over the hourly buckets that occur in the data (pandas `groupby` only
produces groups for observed, non-null keys). -/
def observedTimeFlag (rows : List Row) (r : Row) : Bool :=
  match r.hour with
  | some h => exceedsKStd 16 (hourlyCounts rows) ((hourKeys rows).count h)
  | none => false

/-- Ten rows: nine in hour 0, one in hour 1.  Over the two observed buckets
the mean is 5 and the sample std √32, so nothing exceeds `5 + 2·√32`; over
all 24 buckets the mean is 5/12 and the sample std ≈ 1.84, so the hour-0 count
of 9 exceeds the threshold and the claim would flag its rows. -/
def dfHours : DF :=
  { rows := List.replicate 9 { hour := some 0 } ++ [{ hour := some 1 }],
    cols := ["hour"] }

lemma mean_lt_iff (l : List Rat) (hl : 0 < l.length) (c : Rat) :
    mean l < c ↔ l.sum < c * (l.length : Rat) := by
  unfold mean
  rw [div_lt_iff₀ (by exact_mod_cast hl)]

lemma svar_cleared (l : List Rat) (hl : 2 ≤ l.length) :
    svar l * ((l.length : Rat) ^ 2 * ((l.length : Rat) - 1))
      = (l.map (fun x => ((l.length : Rat) * x - l.sum) ^ 2)).sum := by
  have hn0 : (0 : Rat) < (l.length : Rat) := by
    exact_mod_cast (by omega : 0 < l.length)
  have hn1 : (0 : Rat) < (l.length : Rat) - 1 := by
    have h1 : (1 : Rat) < (l.length : Rat) := by
      exact_mod_cast (by omega : 1 < l.length)
    linarith
  have hpt : l.map (fun x => (x - mean l) ^ 2)
      = l.map (fun x => ((l.length : Rat) * x - l.sum) ^ 2 * (((l.length : Rat) ^ 2)⁻¹)) := by
    refine List.map_congr_left ?_
    intro a _
    unfold mean
    field_simp
    ring
  unfold svar
  rw [hpt, List.sum_map_mul_right]
  field_simp

lemma kstd_cleared_iff (l : List Rat) (hl : 2 ≤ l.length) (KQ c : Rat) :
    (KQ/4) * svar l < (c - mean l) ^ 2 ↔
      KQ * (l.map (fun x => ((l.length : Rat) * x - l.sum) ^ 2)).sum
        < 4 * ((l.length : Rat) - 1) * (c * (l.length : Rat) - l.sum) ^ 2 := by
  have hn0 : (0 : Rat) < (l.length : Rat) := by
    exact_mod_cast (by omega : 0 < l.length)
  have hn1 : (0 : Rat) < (l.length : Rat) - 1 := by
    have h1 : (1 : Rat) < (l.length : Rat) := by
      exact_mod_cast (by omega : 1 < l.length)
    linarith
  have hmul : ∀ x y : Rat,
      (x < y ↔ x * (4 * ((l.length : Rat) ^ 2 * ((l.length : Rat) - 1)))
        < y * (4 * ((l.length : Rat) ^ 2 * ((l.length : Rat) - 1)))) :=
    fun x y => (mul_lt_mul_right (by positivity)).symm
  rw [hmul ((KQ/4) * svar l) ((c - mean l) ^ 2)]
  have e1 : (KQ/4) * svar l * (4 * ((l.length : Rat) ^ 2 * ((l.length : Rat) - 1)))
      = KQ * (svar l * ((l.length : Rat) ^ 2 * ((l.length : Rat) - 1))) := by
    ring
  have e3 : (c - mean l) ^ 2 * (l.length : Rat) ^ 2 = (c * (l.length : Rat) - l.sum) ^ 2 := by
    unfold mean
    field_simp
  have e2 : (c - mean l) ^ 2 * (4 * ((l.length : Rat) ^ 2 * ((l.length : Rat) - 1)))
      = 4 * ((l.length : Rat) - 1) * ((c - mean l) ^ 2 * (l.length : Rat) ^ 2) := by
    ring
  rw [e1, svar_cleared l hl, e2, e3]

lemma sum_natCastInt_toRat (xs : List Nat) :
    (((xs.map (fun (x : Nat) => (x : Int))).sum : Int) : Rat)
      = (xs.map (fun (x : Nat) => (x : Rat))).sum := by
  induction xs with
  | nil => simp
  | cons a t ih =>
    simp only [List.map_cons, List.sum_cons, Int.cast_add]
    rw [ih]
    push_cast
    ring

lemma sum_sq_toRat (n SI : Int) (xs : List Nat) :
    (((xs.map (fun (x : Nat) => (n * (x : Int) - SI) ^ 2)).sum : Int) : Rat)
      = ((xs.map (fun (x : Nat) => (x : Rat))).map
          (fun x => (((n : Int) : Rat) * x - ((SI : Int) : Rat)) ^ 2)).sum := by
  induction xs with
  | nil => simp
  | cons a t ih =>
    simp only [List.map_cons, List.sum_cons, Int.cast_add]
    rw [ih]
    push_cast
    ring

/-- Validation of the integer form of `exceedsKStd` against the `Rat`-level
`mean` and sample variance: for group sizes `xs` and `K = 4k²`, the integer
comparison holds iff there are at least two groups, the count exceeds the
mean, and `(c − mean)² > k²·svar` — i.e. `c > mean + k·std`. -/
lemma exceedsKStd_iff (K : Int) (xs : List Nat) (c : Nat) :
    exceedsKStd K xs c = true ↔
      2 ≤ xs.length ∧
      mean (xs.map (fun (x : Nat) => (x : Rat))) < (c : Rat) ∧
      ((K : Rat)/4) * svar (xs.map (fun (x : Nat) => (x : Rat)))
        < ((c : Rat) - mean (xs.map (fun (x : Nat) => (x : Rat)))) ^ 2 := by
  unfold exceedsKStd
  simp only [Bool.and_eq_true, decide_eq_true_eq]
  by_cases hn : 2 ≤ xs.length
  case neg =>
    constructor
    · rintro ⟨⟨h2, _⟩, _⟩
      exact absurd h2 hn
    · rintro ⟨h2, _⟩
      exact absurd h2 hn
  case pos =>
    have hlen : (xs.map (fun (x : Nat) => (x : Rat))).length = xs.length := List.length_map xs _
    have hl2 : 2 ≤ (xs.map (fun (x : Nat) => (x : Rat))).length := by omega
    have hl0 : 0 < (xs.map (fun (x : Nat) => (x : Rat))).length := by omega
    have hs := sum_natCastInt_toRat xs
    have ht := sum_sq_toRat ((xs.length : Int)) ((xs.map (fun (x : Nat) => (x : Int))).sum) xs
    generalize hSg : (xs.map (fun (x : Nat) => (x : Int))).sum = S at hs ht ⊢
    generalize hTg : (xs.map (fun (x : Nat) => ((xs.length : Int) * (x : Int) - S) ^ 2)).sum = T at ht ⊢
    push_cast at ht
    rw [mean_lt_iff _ hl0 ((c : Rat)), kstd_cleared_iff _ hl2 ((K : Rat)) ((c : Rat)),
      hlen, ← hs, ← ht]
    constructor
    · rintro ⟨⟨h2, hlt⟩, hvar⟩
      rw [← Int.cast_lt (R := Rat)] at hlt hvar
      push_cast at hlt hvar
      exact ⟨h2, hlt, hvar⟩
    · rintro ⟨h2, hlt, hvar⟩
      refine ⟨⟨h2, ?_⟩, ?_⟩
      · rw [← Int.cast_lt (R := Rat)]
        push_cast
        exact hlt
      · rw [← Int.cast_lt (R := Rat)]
        push_cast
        exact hvar

/-- C5 counterexample: on `dfHours` (ten rows, at least the 10-row floor) the
detector flags no row, while the claimed 24-bucket statistics would flag the
nine rows of hour 0; the claim as stated is therefore false on this input. -/
theorem time_anomalies_not_24_buckets :
    10 ≤ dfHours.rows.length ∧
    ¬ (∀ r ∈ (detect_time_based_anomalies dfHours).rows,
        r.time_anomaly = spec24Flag dfHours.rows r) := by decide

/-- C5 amended: for every table with at least 10 rows, the time-based
detector flags exactly those rows whose (non-null) hour has a count exceeding
`mean + 2·std`, where the statistics range over the hourly buckets that
occur in the data (not all 24 buckets); rows with a null hour are never
flagged. -/
theorem time_anomalies_observed_buckets (df : DF) (h : 10 ≤ df.rows.length) :
    (detect_time_based_anomalies df).rows
      = df.rows.map (fun r => { r with time_anomaly := observedTimeFlag df.rows r }) := by
  simp only [detect_time_based_anomalies]
  rw [if_neg (by omega)]
  refine List.map_congr_left ?_
  intro r hr
  cases hh : r.hour with
  | none => simp [observedTimeFlag, hh]
  | some hv =>
    have hmem : hv ∈ (hourKeys df.rows).dedup :=
      List.mem_dedup.mpr (List.mem_filterMap.mpr ⟨r, hr, hh⟩)
    simp only [observedTimeFlag, hh]
    cases hp : exceedsKStd 16 (hourlyCounts df.rows) ((hourKeys df.rows).count hv) with
    | true => simp [List.mem_filter, hmem, hp]
    | false => simp [List.mem_filter, hmem, hp]

theorem time_anomalies_observed_buckets_witness :
    10 ≤ dfHours.rows.length ∧
    (detect_time_based_anomalies dfHours).rows
      = dfHours.rows.map (fun r => { r with time_anomaly := observedTimeFlag dfHours.rows r }) :=
  ⟨by decide, time_anomalies_observed_buckets dfHours (by decide)⟩

/-! ### Claim C6: `analyze` on a five-row table -/

lemma detchain_below_floor (predict : DF → List Bool) (df : DF)
    (h : df.rows.length < 10) :
    detect_source_anomalies (detect_frequency_anomalies
        (detect_ml_anomalies predict (detect_time_based_anomalies df)))
      = { rows := df.rows.map (fun r =>
            { r with time_anomaly := false, ml_anomaly := false,
                     frequency_anomaly := false, source_anomaly := false }),
          cols := addCol "source_anomaly" (addCol "frequency_anomaly"
            (addCol "ml_anomaly" (addCol "time_anomaly" df.cols))) } := by
  have e1 : detect_time_based_anomalies df
      = { rows := df.rows.map (fun r => { r with time_anomaly := false }),
          cols := addCol "time_anomaly" df.cols } := by
    unfold detect_time_based_anomalies
    rw [if_pos h]
  have l1 : (df.rows.map (fun r => { r with time_anomaly := false })).length < 10 := by
    simpa using h
  have e2 : detect_ml_anomalies predict
        ({ rows := df.rows.map (fun r => { r with time_anomaly := false }),
           cols := addCol "time_anomaly" df.cols } : DF)
      = { rows := (df.rows.map (fun r => { r with time_anomaly := false })).map
            (fun r => { r with ml_anomaly := false }),
          cols := addCol "ml_anomaly" (addCol "time_anomaly" df.cols) } := by
    unfold detect_ml_anomalies
    rw [if_pos l1]
  have l2 : ((df.rows.map (fun r => { r with time_anomaly := false })).map
      (fun r => { r with ml_anomaly := false })).length < 10 := by
    simpa using h
  have e3 : detect_frequency_anomalies
        ({ rows := (df.rows.map (fun r => { r with time_anomaly := false })).map
            (fun r => { r with ml_anomaly := false }),
           cols := addCol "ml_anomaly" (addCol "time_anomaly" df.cols) } : DF)
      = { rows := ((df.rows.map (fun r => { r with time_anomaly := false })).map
            (fun r => { r with ml_anomaly := false })).map
            (fun r => { r with frequency_anomaly := false }),
          cols := addCol "frequency_anomaly"
            (addCol "ml_anomaly" (addCol "time_anomaly" df.cols)) } := by
    unfold detect_frequency_anomalies
    rw [if_pos (Or.inr l2)]
  have l3 : (((df.rows.map (fun r => { r with time_anomaly := false })).map
      (fun r => { r with ml_anomaly := false })).map
      (fun r => { r with frequency_anomaly := false })).length < 10 := by
    simpa using h
  have e4 : detect_source_anomalies
        ({ rows := ((df.rows.map (fun r => { r with time_anomaly := false })).map
            (fun r => { r with ml_anomaly := false })).map
            (fun r => { r with frequency_anomaly := false }),
           cols := addCol "frequency_anomaly"
            (addCol "ml_anomaly" (addCol "time_anomaly" df.cols)) } : DF)
      = { rows := (((df.rows.map (fun r => { r with time_anomaly := false })).map
            (fun r => { r with ml_anomaly := false })).map
            (fun r => { r with frequency_anomaly := false })).map
            (fun r => { r with source_anomaly := false }),
          cols := addCol "source_anomaly" (addCol "frequency_anomaly"
            (addCol "ml_anomaly" (addCol "time_anomaly" df.cols))) } := by
    unfold detect_source_anomalies
    rw [if_pos (Or.inr l3)]
  rw [e1, e2, e3, e4]
  refine congrArg₂ DF.mk ?_ rfl
  rw [List.map_map, List.map_map, List.map_map]
  rfl

lemma rowScore_floor_cols (r : Row) (hT : r.time_anomaly = false)
    (hM : r.ml_anomaly = false) (hF : r.frequency_anomaly = false)
    (hS : r.source_anomaly = false) (cols : List String)
    (h1 : cols.contains "is_security_event" = true) :
    rowScore cols r = (if r.is_security_event then (1 : Rat)/2 else 0) := by
  simp only [rowScore, hT, hM, hF, hS, h1, Bool.false_eq_true, if_false,
    ite_self, add_zero, zero_add, if_true]
  cases hsec : r.is_security_event <;> norm_num

/-- Five log lines none of which matches a grammar; the last contains the
security keyword "error". -/
def linesFive : List String :=
  ["alpha", "beta", "gamma", "delta", "error epsilon"]

/-- A timestamp parser on which every string is unparseable (the five sample
lines carry no parseable timestamp anyway). -/
def toDTnone : ToDatetime := fun _ => none

/-- The five-row feature table the pipeline builds from `linesFive`. -/
def dfFive : DF :=
  extract_features toDTnone
    (parse_log_file rmNone rmNone "2025-01-02 03:04:05" linesFive)

/-- The fallback record for "error epsilon" as a feature row: `unknown` log
type, INFO severity, unparseable timestamp, and a security keyword. -/
def badRowFive : Row :=
  { timestamp := none, log_type := "unknown", severity := "INFO",
    source := "unknown", message := "error epsilon",
    is_security_event := true }

/-- C6 counterexample: `dfFive` comes from a log file with exactly 5 rows,
yet `analyze` gives its last row (message "error epsilon", a security
keyword) `anomaly_score = 0.5·is_security_event = 1/2 ≠ 0`: the claim that
the score is 0 for every row is false. -/
theorem analyze_five_rows_score_nonzero :
    dfFive.rows.length = 5 ∧
    ¬ (∀ r ∈ (analyze (fun _ => []) dfFive).rows, r.anomaly_score = 0) := by
  refine ⟨rfl, ?_⟩
  intro hall
  have h5 : dfFive.rows.length = 5 := rfl
  have hlt : dfFive.rows.length < 10 := by omega
  have hch := detchain_below_floor (fun _ => []) dfFive hlt
  have hcols : (addCol "source_anomaly" (addCol "frequency_anomaly"
      (addCol "ml_anomaly" (addCol "time_anomaly" dfFive.cols)))).contains
        "is_security_event" = true := by rfl
  have hmem0 : badRowFive ∈ dfFive.rows := by decide
  have hana : analyze (fun _ => []) dfFive
      = combine_anomaly_scores
          ({ rows := dfFive.rows.map (fun r =>
               { r with time_anomaly := false, ml_anomaly := false,
                        frequency_anomaly := false, source_anomaly := false }),
             cols := addCol "source_anomaly" (addCol "frequency_anomaly"
               (addCol "ml_anomaly" (addCol "time_anomaly" dfFive.cols))) } : DF) := by
    show combine_anomaly_scores _ = _
    rw [hch]
  obtain ⟨r, hr, hsc⟩ : ∃ r ∈ (analyze (fun _ => []) dfFive).rows,
      r.anomaly_score = rowScore (addCol "source_anomaly" (addCol "frequency_anomaly"
        (addCol "ml_anomaly" (addCol "time_anomaly" dfFive.cols)))) badRowFive := by
    rw [hana]
    exact ⟨_, List.mem_map.mpr
      ⟨_, List.mem_map.mpr ⟨badRowFive, hmem0, rfl⟩, rfl⟩, rfl⟩
  have h0 := hall r hr
  rw [hsc, rowScore_floor_cols _ rfl rfl rfl rfl _ hcols] at h0
  norm_num at h0
  exact absurd h0 (by decide)

/-- C6 amended: for every table produced from a log file with exactly 5 rows
(below the 10-row floor), `analyze` returns the table with its row count
unmodified and all four anomaly booleans uniformly false and `is_anomaly`
false, and `anomaly_score` equal to `0.5·is_security_event` per row — i.e. 0
for rows without a security keyword and 0.5 for rows with one (not 0 for
every row, since `combine_anomaly_scores` still adds the
`is_security_event` term). -/
theorem analyze_five_rows_amended (predict : DF → List Bool)
    (re reSearch : Matcher) (toDT : ToDatetime) (now : String)
    (lines : List String)
    (h5 : (extract_features toDT (parse_log_file re reSearch now lines)).rows.length = 5) :
    (analyze predict (extract_features toDT (parse_log_file re reSearch now lines))).rows.length = 5 ∧
    ∀ r ∈ (analyze predict (extract_features toDT (parse_log_file re reSearch now lines))).rows,
      r.time_anomaly = false ∧ r.ml_anomaly = false ∧ r.frequency_anomaly = false ∧
      r.source_anomaly = false ∧ r.is_anomaly = false ∧
      r.anomaly_score = (if r.is_security_event then (1 : Rat)/2 else 0) := by
  set df := extract_features toDT (parse_log_file re reSearch now lines) with hdf
  have hlt : df.rows.length < 10 := by omega
  have hch := detchain_below_floor predict df hlt
  have hcols : (addCol "source_anomaly" (addCol "frequency_anomaly"
      (addCol "ml_anomaly" (addCol "time_anomaly" df.cols)))).contains
        "is_security_event" = true := by
    rw [hdf]
    rfl
  constructor
  · show (combine_anomaly_scores _).rows.length = 5
    rw [hch]
    simpa [combine_anomaly_scores] using h5
  · intro r hr
    have hr2 : r ∈ (combine_anomaly_scores (detect_source_anomalies
        (detect_frequency_anomalies (detect_ml_anomalies predict
          (detect_time_based_anomalies df))))).rows := hr
    rw [hch] at hr2
    simp only [combine_anomaly_scores, List.mem_map] at hr2
    obtain ⟨r1, hmem1, rfl⟩ := hr2
    obtain ⟨r0, hmem0, rfl⟩ := hmem1
    have hsc : rowScore (addCol "source_anomaly" (addCol "frequency_anomaly"
        (addCol "ml_anomaly" (addCol "time_anomaly" df.cols))))
          ({ r0 with time_anomaly := false, ml_anomaly := false,
                     frequency_anomaly := false, source_anomaly := false })
        = (if r0.is_security_event then (1 : Rat)/2 else 0) :=
      rowScore_floor_cols _ rfl rfl rfl rfl _ hcols
    refine ⟨rfl, rfl, rfl, rfl, ?_, ?_⟩
    · apply decide_eq_false
      rw [hsc]
      cases hsec : r0.is_security_event
      · norm_num
      · norm_num
    · exact hsc

theorem analyze_five_rows_amended_witness :
    dfFive.rows.length = 5 ∧
    ((analyze (fun _ => []) dfFive).rows.length = 5 ∧
     ∀ r ∈ (analyze (fun _ => []) dfFive).rows,
       r.time_anomaly = false ∧ r.ml_anomaly = false ∧ r.frequency_anomaly = false ∧
       r.source_anomaly = false ∧ r.is_anomaly = false ∧
       r.anomaly_score = (if r.is_security_event then (1 : Rat)/2 else 0)) :=
  ⟨rfl, analyze_five_rows_amended (fun _ => []) rmNone rmNone toDTnone
    "2025-01-02 03:04:05" linesFive rfl⟩

/-! ### Claims C7 and C10: frequency detector -/

lemma contains_iff_mem (l : List String) (a : String) :
    l.contains a = true ↔ a ∈ l := by
  simp [List.contains, List.elem_iff]

lemma mem_addCol_iff (c a : String) (cols : List String) :
    a ∈ addCol c cols ↔ a ∈ cols ∨ a = c := by
  unfold addCol
  split_ifs with h
  · constructor
    · exact Or.inl
    · rintro (h1 | rfl)
      · exact h1
      · exact (contains_iff_mem _ _).mp h
  · simp [List.mem_append]

lemma addCol_of_not_mem {c : String} {l : List String} (h : c ∉ l) :
    addCol c l = l ++ [c] := by
  unfold addCol
  rw [if_neg (fun hc => h ((contains_iff_mem _ _).mp hc))]

lemma addCol_of_contains {c : String} {l : List String} (h : l.contains c = true) :
    addCol c l = l := by
  unfold addCol
  rw [if_pos h]

lemma setDiffs_length (p : Option Int) (l : List Row) :
    (setDiffs p l).length = l.length := by
  induction l generalizing p with
  | nil => rfl
  | cons r t ih => simp [setDiffs, ih]

lemma tsKeys_setDiffs (p : Option Int) (l : List Row) :
    (setDiffs p l).map tsKey = l.map tsKey := by
  induction l generalizing p with
  | nil => rfl
  | cons r t ih => simp [setDiffs, tsKey, ih]

lemma windowKeys_eq_map_tsKeys (m : Int) (l : List Row) :
    windowKeys m l = (l.map tsKey).map (fun t => Int.fdiv t (m * 60) * (m * 60)) := by
  unfold windowKeys windowKey
  rw [List.map_map]
  rfl

lemma windowKeys_setDiffs (m : Int) (p : Option Int) (l : List Row) :
    windowKeys m (setDiffs p l) = windowKeys m l := by
  rw [windowKeys_eq_map_tsKeys, windowKeys_eq_map_tsKeys, tsKeys_setDiffs]

lemma isSome_setDiffs (p : Option Int) (l : List Row)
    (h : ∀ r ∈ l, r.timestamp.isSome = true) :
    ∀ r ∈ setDiffs p l, r.timestamp.isSome = true := by
  induction l generalizing p with
  | nil =>
    intro r hr
    cases hr
  | cons a t ih =>
    intro r hr
    simp only [setDiffs] at hr
    rcases List.mem_cons.mp hr with hr | hr
    · subst hr
      exact h a (List.mem_cons_self a t)
    · exact ih a.timestamp (fun x hx => h x (List.mem_cons_of_mem _ hx)) r hr

lemma exceedsKStd_perm (K : Int) {xs ys : List Nat} (h : xs.Perm ys) (c : Nat) :
    exceedsKStd K xs c = exceedsKStd K ys c := by
  simp only [exceedsKStd]
  rw [h.length_eq, (h.map (fun (x : Nat) => (x : Int))).sum_eq,
    (h.map (fun (x : Nat) =>
      ((ys.length : Int) * (x : Int) - (ys.map (fun (x : Nat) => (x : Int))).sum) ^ 2)).sum_eq]

lemma windowKeys_perm (m : Int) (kept : List Row) :
    (windowKeys m (setDiffs none (kept.insertionSort tsLE))).Perm (windowKeys m kept) := by
  rw [windowKeys_setDiffs]
  exact (List.perm_insertionSort tsLE kept).map (windowKey m)

lemma windowCounts_perm (m : Int) (kept : List Row) :
    (windowCounts m (setDiffs none (kept.insertionSort tsLE))).Perm (windowCounts m kept) := by
  have hperm := windowKeys_perm m kept
  unfold windowCounts
  have hmc : (windowKeys m (setDiffs none (kept.insertionSort tsLE))).dedup.map
        (fun w => (windowKeys m (setDiffs none (kept.insertionSort tsLE))).count w)
      = (windowKeys m (setDiffs none (kept.insertionSort tsLE))).dedup.map
        (fun w => (windowKeys m kept).count w) :=
    List.map_congr_left (fun w _ => hperm.count_eq w)
  rw [hmc]
  exact hperm.dedup.map _

/-- Claim C7 as a per-row flag over the kept (non-null-timestamp) rows: the
count of the m-minute window of the row exceeds `mean + 3·std` (`K = 36`) across the
windows observed among the kept rows. -/
def specFreqFlag (m : Int) (kept : List Row) (r : Row) : Bool :=
  exceedsKStd 36 (windowCounts m kept) ((windowKeys m kept).count (windowKey m r))

lemma freq_flag_transport (m : Int) (kept : List Row) (r2 : Row)
    (hmem : r2 ∈ setDiffs none (kept.insertionSort tsLE)) :
    decide (windowKey m r2 ∈ (windowKeys m (setDiffs none (kept.insertionSort tsLE))).dedup.filter
      (fun w => exceedsKStd 36 (windowCounts m (setDiffs none (kept.insertionSort tsLE)))
        ((windowKeys m (setDiffs none (kept.insertionSort tsLE))).count w)))
    = specFreqFlag m kept r2 := by
  have hperm := windowKeys_perm m kept
  have hwk : windowKey m r2 ∈ windowKeys m (setDiffs none (kept.insertionSort tsLE)) :=
    List.mem_map_of_mem (windowKey m) hmem
  have hcnt : (windowKeys m (setDiffs none (kept.insertionSort tsLE))).count (windowKey m r2)
      = (windowKeys m kept).count (windowKey m r2) := hperm.count_eq _
  have hexc : exceedsKStd 36 (windowCounts m (setDiffs none (kept.insertionSort tsLE)))
        ((windowKeys m (setDiffs none (kept.insertionSort tsLE))).count (windowKey m r2))
      = specFreqFlag m kept r2 := by
    rw [hcnt, exceedsKStd_perm 36 (windowCounts_perm m kept)]
    rfl
  cases hp : specFreqFlag m kept r2 with
  | true =>
    rw [hp] at hexc
    simp [List.mem_filter, List.mem_dedup, hwk, hexc]
  | false =>
    rw [hp] at hexc
    simp [List.mem_filter, List.mem_dedup, hwk, hexc]

/-- C7: for every table with a timestamp column and at least 10 rows, the
frequency detector first drops rows with a null timestamp, re-checks the
10-row floor on the kept rows (returning the flag uniformly false on them if
below it), and otherwise flags exactly those rows whose fixed-width 5-minute
window (timestamps floored to the window start) has a row count exceeding
`mean + 3·std` across the windows observed among the kept rows. -/
theorem frequency_anomalies_spec (df : DF)
    (hc : df.cols.contains "timestamp" = true) (h10 : 10 ≤ df.rows.length) :
    ((df.rows.filter (fun r => r.timestamp.isSome)).length < 10 →
      (detect_frequency_anomalies df).rows
        = (df.rows.filter (fun r => r.timestamp.isSome)).map
            (fun r => { r with frequency_anomaly := false })) ∧
    (10 ≤ (df.rows.filter (fun r => r.timestamp.isSome)).length →
      ∀ r ∈ (detect_frequency_anomalies df).rows,
        r.frequency_anomaly
          = specFreqFlag 5 (df.rows.filter (fun r => r.timestamp.isSome)) r) := by
  have hcond : ¬ (¬ (df.cols.contains "timestamp" = true) ∨ df.rows.length < 10) := by
    rintro (h1 | h2)
    · exact h1 hc
    · omega
  constructor
  · intro hklt
    simp only [detect_frequency_anomalies]
    rw [if_neg hcond, if_pos hklt]
  · intro hk10 r hr
    simp only [detect_frequency_anomalies] at hr
    rw [if_neg hcond, if_neg (by omega)] at hr
    simp only [List.mem_map] at hr
    obtain ⟨r2, hr2, rfl⟩ := hr
    exact freq_flag_transport 5 (df.rows.filter (fun r => r.timestamp.isSome)) r2 hr2

/-- C10: frame effects of the frequency detector when the kept rows stay at
or above the floor: the returned rows are exactly the non-null-timestamp
rows (so the result can have fewer rows than the input), reordered ascending
by timestamp; every returned row has a non-null timestamp; a leftover
`time_diff` column remains in the result, and only the temporary `window`
column is dropped. -/
theorem frequency_anomalies_frame (df : DF)
    (hc : df.cols.contains "timestamp" = true) (h10 : 10 ≤ df.rows.length)
    (hk : 10 ≤ (df.rows.filter (fun r => r.timestamp.isSome)).length)
    (hw : df.cols.contains "window" = false) :
    (detect_frequency_anomalies df).rows.length
        = (df.rows.filter (fun r => r.timestamp.isSome)).length ∧
    List.Sorted (· ≤ ·) ((detect_frequency_anomalies df).rows.map tsKey) ∧
    (∀ r ∈ (detect_frequency_anomalies df).rows, r.timestamp.isSome = true) ∧
    (detect_frequency_anomalies df).cols.contains "time_diff" = true ∧
    (detect_frequency_anomalies df).cols.contains "window" = false := by
  have hcond : ¬ (¬ (df.cols.contains "timestamp" = true) ∨ df.rows.length < 10) := by
    rintro (h1 | h2)
    · exact h1 hc
    · omega
  have hfreq : detect_frequency_anomalies df
      = { rows := (setDiffs none ((df.rows.filter (fun r => r.timestamp.isSome)).insertionSort
            tsLE)).map (fun r =>
              { r with frequency_anomaly := decide (windowKey 5 r ∈
                  (windowKeys 5 (setDiffs none ((df.rows.filter
                    (fun r => r.timestamp.isSome)).insertionSort tsLE))).dedup.filter
                    (fun w => exceedsKStd 36 (windowCounts 5 (setDiffs none ((df.rows.filter
                      (fun r => r.timestamp.isSome)).insertionSort tsLE)))
                      ((windowKeys 5 (setDiffs none ((df.rows.filter
                        (fun r => r.timestamp.isSome)).insertionSort tsLE))).count w))) }),
          cols := (addCol "frequency_anomaly"
            (addCol "window" (addCol "time_diff" df.cols))).erase "window" } := by
    simp only [detect_frequency_anomalies]
    rw [if_neg hcond, if_neg (by omega)]
  refine ⟨?_, ?_, ?_, ?_, ?_⟩
  · rw [hfreq]
    simp [setDiffs_length,
      (List.perm_insertionSort tsLE (df.rows.filter (fun r => r.timestamp.isSome))).length_eq]
  · rw [hfreq]
    have hsorted : List.Sorted tsLE
        ((df.rows.filter (fun r => r.timestamp.isSome)).insertionSort tsLE) :=
      List.sorted_insertionSort tsLE _
    have hmap : ((setDiffs none ((df.rows.filter (fun r => r.timestamp.isSome)).insertionSort
          tsLE)).map (fun r =>
            { r with frequency_anomaly := decide (windowKey 5 r ∈
                (windowKeys 5 (setDiffs none ((df.rows.filter
                  (fun r => r.timestamp.isSome)).insertionSort tsLE))).dedup.filter
                  (fun w => exceedsKStd 36 (windowCounts 5 (setDiffs none ((df.rows.filter
                    (fun r => r.timestamp.isSome)).insertionSort tsLE)))
                    ((windowKeys 5 (setDiffs none ((df.rows.filter
                      (fun r => r.timestamp.isSome)).insertionSort tsLE))).count w))) })).map tsKey
        = ((df.rows.filter (fun r => r.timestamp.isSome)).insertionSort tsLE).map tsKey := by
      rw [List.map_map]
      have hcomp : (setDiffs none ((df.rows.filter (fun r => r.timestamp.isSome)).insertionSort
            tsLE)).map (tsKey ∘ (fun r =>
              { r with frequency_anomaly := decide (windowKey 5 r ∈
                  (windowKeys 5 (setDiffs none ((df.rows.filter
                    (fun r => r.timestamp.isSome)).insertionSort tsLE))).dedup.filter
                    (fun w => exceedsKStd 36 (windowCounts 5 (setDiffs none ((df.rows.filter
                      (fun r => r.timestamp.isSome)).insertionSort tsLE)))
                      ((windowKeys 5 (setDiffs none ((df.rows.filter
                        (fun r => r.timestamp.isSome)).insertionSort tsLE))).count w))) }))
          = (setDiffs none ((df.rows.filter (fun r => r.timestamp.isSome)).insertionSort
              tsLE)).map tsKey :=
        List.map_congr_left (fun r _ => rfl)
      rw [hcomp, tsKeys_setDiffs]
    rw [hmap]
    exact List.Pairwise.map tsKey (fun a b h => h) hsorted
  · rw [hfreq]
    intro r hr
    simp only [List.mem_map] at hr
    obtain ⟨r2, hr2, rfl⟩ := hr
    have hkept : ∀ x ∈ (df.rows.filter (fun r => r.timestamp.isSome)).insertionSort tsLE,
        x.timestamp.isSome = true := by
      intro x hx
      have := (List.mem_insertionSort tsLE).mp hx
      exact (List.mem_filter.mp this).2
    exact isSome_setDiffs none _ hkept r2 hr2
  · rw [hfreq]
    rw [contains_iff_mem]
    rw [List.mem_erase_of_ne (by decide)]
    rw [mem_addCol_iff, mem_addCol_iff, mem_addCol_iff]
    exact Or.inl (Or.inl (Or.inr rfl))
  · rw [hfreq]
    have hw1 : ("window" : String) ∉ df.cols := by
      intro hm
      have := (contains_iff_mem df.cols "window").mpr hm
      rw [hw] at this
      exact absurd this (by simp)
    have hw2 : ("window" : String) ∉ addCol "time_diff" df.cols := by
      rw [mem_addCol_iff]
      rintro (h1 | h2)
      · exact hw1 h1
      · exact absurd h2 (by decide)
    have hA : addCol "window" (addCol "time_diff" df.cols)
        = addCol "time_diff" df.cols ++ ["window"] := addCol_of_not_mem hw2
    rw [hA]
    by_cases hf : (addCol "time_diff" df.cols ++ ["window"]).contains "frequency_anomaly" = true
    · rw [addCol_of_contains hf, List.erase_append_right _ hw2]
      have : (["window"] : List String).erase "window" = [] := by decide
      rw [this, List.append_nil, ← Bool.not_eq_true]
      intro hcon
      exact hw2 ((contains_iff_mem _ _).mp hcon)
    · rw [addCol_of_not_mem (fun hm => hf ((contains_iff_mem _ _).mpr hm)),
        List.append_assoc, List.erase_append_right _ hw2]
      have : ((["window"] ++ ["frequency_anomaly"]) : List String).erase "window"
          = ["frequency_anomaly"] := by decide
      rw [this, ← Bool.not_eq_true]
      intro hcon
      have := (contains_iff_mem _ _).mp hcon
      rcases List.mem_append.mp this with h1 | h2
      · exact hw2 h1
      · simp at h2

/-- A twelve-row table: eleven rows with timestamps 0,10,…,100 seconds (all
inside one 5-minute window) and one row with a null timestamp. -/
def dfFreqW : DF :=
  { rows := (List.range 11).map
        (fun i => { timestamp := some ((i : Int) * 10), source := "s" })
      ++ [{ timestamp := none, source := "t" }],
    cols := ["timestamp", "source"] }

theorem frequency_anomalies_spec_witness :
    (dfFreqW.cols.contains "timestamp" = true ∧ 10 ≤ dfFreqW.rows.length) ∧
    (((dfFreqW.rows.filter (fun r => r.timestamp.isSome)).length < 10 →
      (detect_frequency_anomalies dfFreqW).rows
        = (dfFreqW.rows.filter (fun r => r.timestamp.isSome)).map
            (fun r => { r with frequency_anomaly := false })) ∧
     (10 ≤ (dfFreqW.rows.filter (fun r => r.timestamp.isSome)).length →
      ∀ r ∈ (detect_frequency_anomalies dfFreqW).rows,
        r.frequency_anomaly
          = specFreqFlag 5 (dfFreqW.rows.filter (fun r => r.timestamp.isSome)) r)) :=
  ⟨⟨by decide, by decide⟩, frequency_anomalies_spec dfFreqW (by decide) (by decide)⟩

theorem frequency_anomalies_frame_witness :
    (dfFreqW.cols.contains "timestamp" = true ∧ 10 ≤ dfFreqW.rows.length ∧
     10 ≤ (dfFreqW.rows.filter (fun r => r.timestamp.isSome)).length ∧
     dfFreqW.cols.contains "window" = false) ∧
    ((detect_frequency_anomalies dfFreqW).rows.length
        = (dfFreqW.rows.filter (fun r => r.timestamp.isSome)).length ∧
     List.Sorted (· ≤ ·) ((detect_frequency_anomalies dfFreqW).rows.map tsKey) ∧
     (∀ r ∈ (detect_frequency_anomalies dfFreqW).rows, r.timestamp.isSome = true) ∧
     (detect_frequency_anomalies dfFreqW).cols.contains "time_diff" = true ∧
     (detect_frequency_anomalies dfFreqW).cols.contains "window" = false) ∧
    (detect_frequency_anomalies dfFreqW).rows.length < dfFreqW.rows.length :=
  ⟨⟨by decide, by decide, by decide, by decide⟩,
   frequency_anomalies_frame dfFreqW (by decide) (by decide) (by decide) (by decide),
   by decide⟩

end SecLog
